import Mathlib

/-!
Shallow embedding of the bionode-ncbi client library (main module
`bionode-ncbi.js` plus `valid-dbs.js`).

Pure pieces of the source (URL builders, the pagination arithmetic, the
retry classification, the link-set matching, accession slicing, id-list
chunking, database validation) are translated into executable Lean
definitions.  Stream transforms (`through.obj` transforms) are modelled as
functions from their per-object input to the complete list/outcome of what
they push or emit for that input; the retrying fetcher is modelled as a
function over a finite scenario of successive network responses.
-/

namespace BionodeNcbi

/-- JavaScript truthiness of an optional string field: absent and the empty
string are falsy, every other string is truthy. -/
def jsTruthyStr : Option String → Bool
  | none => false
  | some s => !s.isEmpty

/-- JavaScript `x || d` for an optional numeric field `x`: `undefined` and
`0` are falsy and fall back to `d`. -/
def jsOrNat : Option Nat → Nat → Nat
  | none, d => d
  | some n, d => if n = 0 then d else n

/-- `Math.ceil(a / b)` for natural `a` and positive natural `b`. -/
def jsCeilDiv (a b : Nat) : Nat := (a + b - 1) / b

/-- Source constant `APIROOT` (browser proxy absent in Node). -/
def APIROOT : String := "http://eutils.ncbi.nlm.nih.gov/entrez/eutils/"

/-- Source constant `DEFAULTS`. -/
def DEFAULTS : String := "retmode=json&version=2.0"

/-- Source constant `RETURNMAX`. -/
def RETURNMAX : Nat := 50

/-- The decoded `esearchresult` envelope of an esearch JSON body.  Fields
the source reads; each is optional because the upstream service is known to
omit them.  `count` is kept as a number (the source applies `parseInt` /
numeric coercion to the JSON string). -/
structure EsearchResult where
  webenv : Option String
  count : Option Nat
  idlist : Option (List String)
  ERROR : Option String
deriving DecidableEq

/-- A decoded JSON response body, restricted to the fields the source
inspects (`body.esearchresult`, `body.esummaryresult`, `body.error`). -/
structure JsonBody where
  esearchresult : Option EsearchResult
  esummaryresult : Option (List String)
  error : Option String
deriving DecidableEq

/-- JavaScript `encodeURI` keeps alphanumerics and this reserved/unreserved
set unescaped. -/
def isURIUnescaped (c : Char) : Bool :=
  c.isAlphanum ||
    [ '-', '_', '.', '!', '~', '*', '\'', '(', ')',
      ';', '/', '?', ':', '@', '&', '=', '+', '$', ',', '#'].contains c

/-- Upper-case hexadecimal digit of `n < 16`. -/
def hexDigit (n : Nat) : Char :=
  if n < 10 then Char.ofNat (48 + n) else Char.ofNat (55 + n)

/-- Percent-escape of one UTF-8 byte. -/
def percentByte (b : UInt8) : String :=
  "%" ++ String.mk [hexDigit (b.toNat / 16), hexDigit (b.toNat % 16)]

/-- `encodeURI` on one character: kept characters pass through, all others
are percent-escaped byte-by-byte in UTF-8. -/
def encodeURIChar (c : Char) : String :=
  if isURIUnescaped c then String.singleton c
  else String.join (((String.singleton c).toUTF8.toList).map percentByte)

/-- JavaScript `encodeURI`. -/
def encodeURI (s : String) : String :=
  String.join (s.toList.map encodeURIChar)

/-- `term.replace(/['"]+/g, '')` from `createAPISearchUrl`: every single or
double quote character is removed. -/
def stripQuotes (s : String) : String :=
  String.mk (s.toList.filter (fun c => c ≠ '\'' && c ≠ '"'))

/-- The esearch URL pushed by `createAPISearchUrl` for one written term. -/
def esearchQuery (db term : String) : String :=
  String.intercalate "&"
    [ APIROOT ++ "esearch.fcgi?",
      DEFAULTS,
      "db=" ++ db,
      "term=" ++ encodeURI (stripQuotes term),
      "usehistory=y"]

/-- One page request URL pushed by the loop in `createAPIPaginateURL`.
`db` and `term` are the values the source recovers from the originating
search URL's query string (`URL.parse(obj.url, true).query`); the model
takes them as parameters. -/
def paginateQuery (db term webenv : String) (throughput retstart : Nat) : String :=
  String.intercalate "&"
    [ APIROOT ++ "esearch.fcgi?",
      DEFAULTS,
      "db=" ++ db,
      "term=" ++ term,
      "query_key=1",
      "WebEnv=" ++ webenv,
      "retmax=" ++ toString throughput,
      "retstart=" ++ toString retstart]

/-- The error message built in `createAPIPaginateURL` for a malformed
esearch response; the source appends the offending request URL to it. -/
def INVALIDRESULTS : String :=
  "NCBI returned invalid results, this could be a temporary" ++
  " issue with NCBI servers.\nRequest URL: "

/-- The effective page size of `createAPIPaginateURL`:
`var throughput = opts.throughput || RETURNMAX;
 if (opts.limit < throughput) { throughput = opts.limit }`.
A comparison with `undefined` is false in JavaScript, so an absent limit
never clamps. -/
def clampThroughput (limit tp : Option Nat) : Nat :=
  let t := jsOrNat tp RETURNMAX
  match limit with
  | none => t
  | some l => if l < t then l else t

/-- Everything the `createAPIPaginateURL` transform can do with one
incoming `{url, body}` object: emit a stream error, reuse the search URL
for a singleton count, push a finite list of page URLs, or — when the
computed request count is the float `Infinity` (`Math.ceil(count / 0)`
with a positive count) — loop forever without terminating. -/
inductive PaginateOut where
  | fatal (msg : String)
  | single (url : String)
  | pages (urls : List String)
  | diverges
deriving DecidableEq

/-- The `createAPIPaginateURL` transform of the source, for one incoming
`{url, body}` object.  Faithful points: the envelope / `webenv` / `count`
presence check emits the error and stops; the singleton check is on the
reported count, not the limited count; `count = opts.limit || reported`;
`numRequests = Math.ceil(count / throughput)` with offsets
`0, throughput, 2*throughput, …`; a zero `throughput` with a positive
count makes `numRequests` the float `Infinity` and the `for` loop never
terminates (with a zero count it is `NaN` and the loop runs zero times). -/
def createAPIPaginateURL (limit tp : Option Nat) (db term url : String)
    (body : JsonBody) : PaginateOut :=
  let throughput := clampThroughput limit tp
  match body.esearchresult with
  | none => .fatal (INVALIDRESULTS ++ url)
  | some es =>
    match es.webenv, es.count with
    | some webenv, some c =>
      let count := jsOrNat limit c
      if c = 1 then .single url
      else if throughput = 0 then
        (if count = 0 then .pages [] else .diverges)
      else
        .pages ((List.range (jsCeilDiv count throughput)).map
          (fun i => paginateQuery db term webenv throughput (i * throughput)))
    | _, _ => .fatal (INVALIDRESULTS ++ url)

/-- `idlist.slice(i, i + 50)` chunking from `createAPIDataUrl` /
`createAPIFetchUrl`: successive chunks of at most 50 elements. -/
def chunk50 : List String → List (List String)
  | [] => []
  | x :: xs => (x :: xs).take 50 :: chunk50 ((x :: xs).drop 50)
termination_by l => l.length
decreasing_by
  simp only [List.length_drop, List.length_cons]
  omega

/-- The esummary URL pushed by `createAPIDataUrl` for one chunk of ids
(`db` recovered from the page URL's query string). -/
def esummaryQuery (db : String) (ids : List String) : String :=
  String.intercalate "&"
    [ APIROOT ++ "esummary.fcgi?",
      DEFAULTS,
      "db=" ++ db,
      "id=" ++ String.intercalate "," ids,
      "usehistory=y"]

/-- The `createAPIDataUrl` transform of the source for one incoming page
object: a missing or empty `idlist` pushes nothing (and emits no error),
otherwise one esummary URL is pushed per 50-id chunk. -/
def createAPIDataUrl (db : String) (idlist : Option (List String)) : List String :=
  match idlist with
  | none => []
  | some ids => if ids.length = 0 then [] else (chunk50 ids).map (esummaryQuery db)

/-- One observed network response in a `requestStream` scenario: the
`(err, res, body)` triple handed to the `request` callback.  `res` is the
response's status code when a response object exists. -/
structure Response where
  err : Bool
  res : Option Nat
  body : Option JsonBody
deriving DecidableEq

/-- The retryable-failure classification of `requestStream`'s callback:
transport error, missing response, non-200 status, empty body, an
`esearchresult.ERROR` field, the `esummaryresult` sentinel string, or a
truthy `body.error` field. -/
def isRetryable (r : Response) : Bool :=
  r.err ||
  r.res != some 200 ||
  r.body.isNone ||
  (match r.body with
   | none => false
   | some b =>
     jsTruthyStr (b.esearchresult.bind EsearchResult.ERROR) ||
     (b.esummaryresult.bind List.head?) == some "Unable to obtain query #1" ||
     jsTruthyStr b.error)

/-- The fatal message of `requestStream` once `self.tries` exceeds 9; the
template interpolates the current value of `self.tries` and the URL. -/
def failMsg (url : String) (tries : Nat) : String :=
  "Query failed after " ++ toString tries ++
  " tries, maybe a term or network issue?\nThis is what failed: " ++ url

/-- What `requestStream` pushes downstream on success: the bare body, or
`{url, body}` when the stream was created with `returnURL`. -/
inductive Pushed where
  | withUrl (url : String) (body : Option JsonBody)
  | bare (body : Option JsonBody)
deriving DecidableEq

def mkPushed (returnURL : Bool) (url : String) (body : Option JsonBody) : Pushed :=
  if returnURL then .withUrl url body else .bare body

/-- Outcome of one `requestStream` transform run over a finite scenario of
responses: a pushed success, a fatal stream error (which destroys the
pumpify pipeline, so nothing issued afterwards is observable downstream),
or exhaustion of the scenario with a request still outstanding. -/
inductive RSOutcome where
  | success (requestsMade : Nat) (pushed : Pushed)
  | fatal (requestsMade : Nat) (msg : String)
  | starved (requestsMade : Nat)
deriving DecidableEq

/-- The retry loop `get`/`gotData` of `requestStream`.  `tries` is
`self.tries` as seen at the top of `get` (the source initializes it to 1
right after the first synchronous call of `get`, before any asynchronous
callback can run, and increments it before each retry); `made` counts
requests already issued.  When `tries` exceeds 9 the source emits an error
on the stream; inside a pumpify pipeline that error destroys the whole
pipeline, so the model stops there: later pushes would not be observable
downstream. -/
def requestLoop (url : String) (returnURL : Bool) :
    Nat → Nat → List Response → RSOutcome
  | tries, made, [] =>
    if 9 < tries then .fatal made (failMsg url tries) else .starved made
  | tries, made, r :: rest =>
    if 9 < tries then .fatal made (failMsg url tries)
    else if isRetryable r then requestLoop url returnURL (tries + 1) (made + 1) rest
    else .success (made + 1) (mkPushed returnURL url r.body)

/-- The `requestStream` transform for one written URL, run against a
finite scenario of successive responses. -/
def requestStream (returnURL : Bool) (url : String) (responses : List Response) :
    RSOutcome :=
  requestLoop url returnURL 1 0 responses

/-- One `<Link>` element of an elink XML response as decoded by xml2js:
its `<Id>` children. -/
structure LinkEntry where
  Id : List String
deriving DecidableEq

/-- One `<LinkSetDb>` sub-list: its `<LinkName>` children and its `<Link>`
children. -/
structure LinkSetDbT where
  LinkName : List String
  Link : List LinkEntry
deriving DecidableEq

/-- One `<LinkSet>` element; `LinkSetDb` is absent when the source UID has
no linked records. -/
structure LinkSetT where
  LinkSetDb : Option (List LinkSetDbT)
deriving DecidableEq

/-- The decoded `eLinkResult` root of an elink response. -/
structure ELinkResult where
  LinkSet : List LinkSetT
deriving DecidableEq

/-- The object assembled by `createLinkObj`: query-derived fields plus an
optional `destUIDs` list.  Each destination id is `link.Id[0]`, hence an
optional string (`undefined` for an element without `<Id>` children). -/
structure LinkObj where
  srcDB : String
  destDB : String
  srcUID : String
  destUIDs : Option (List (Option String))
deriving DecidableEq

/-- `result.destUIDs` after `LinkSetDb.forEach(getMatch)`: each sub-list
whose `LinkName[0]` equals `dbfrom + '_' + db` overwrites `destUIDs` with
the ordered `Id[0]` of its `Link` children; with no match the field stays
absent. -/
def linkStep (dbfrom db : String) (acc : Option (List (Option String)))
    (l : LinkSetDbT) : Option (List (Option String)) :=
  if l.LinkName.head? = some (dbfrom ++ "_" ++ db) then
    some (l.Link.map (fun e => e.Id.head?))
  else acc

def collectDestUIDs (dbfrom db : String) (sets : List LinkSetDbT) :
    Option (List (Option String)) :=
  sets.foldl (linkStep dbfrom db) none

/-- Everything the `createLinkObj` transform can do with one parsed
response: emit the xml2js parse error, crash on `LinkSet[0]` of an empty
list (a TypeError in the source), emit nothing (absent `LinkSetDb`), or
push exactly one result object. -/
inductive LinkOut where
  | errored (msg : String)
  | crash
  | emitNothing
  | emits (obj : LinkObj)
deriving DecidableEq

/-- The `createLinkObj` transform for one `{url, body}` object whose query
string carried `dbfrom`, `db` and `id`, applied to the xml2js parse result
of the body. -/
def createLinkObj (dbfrom db id : String) (parsed : Except String ELinkResult) :
    LinkOut :=
  match parsed with
  | .error e => .errored e
  | .ok data =>
    match data.LinkSet.head? with
    | none => .crash
    | some ls =>
      match ls.LinkSetDb with
      | none => .emitNothing
      | some sets =>
        .emits
          { srcDB := dbfrom, destDB := db, srcUID := id,
            destUIDs := collectDestUIDs dbfrom db sets }

/-- The nested `runs` field of a normalized sra record (`obj.runs.Run`),
after the sra post-filter ensured `Run` is an array. -/
structure SraRun where
  acc : String
deriving DecidableEq

structure SraRuns where
  Run : List SraRun
deriving DecidableEq

/-- The part of a normalized sra record `createFTPURL` reads. -/
structure SraRecord where
  uid : String
  runs : SraRuns
deriving DecidableEq

/-- A `{url, uid}` pair pushed by the URL locator. -/
structure UrlUid where
  url : String
  uid : String
deriving DecidableEq

/-- The fixed archive root of `sraURL`. -/
def SRAROOT : String :=
  "http://ftp.ncbi.nlm.nih.gov/sra/sra-instant/reads/ByRun/sra/"

/-- The archive URL built for one run accession: the joined segments
`root, acc[0:3]/, acc[0:6]/, acc/, acc.sra`. -/
def sraRunURL (acc : String) : String :=
  String.join
    [ SRAROOT,
      acc.take 3 ++ "/",
      acc.take 6 ++ "/",
      acc ++ "/",
      acc ++ ".sra"]

/-- The `sraURL` branch of the `createFTPURL` transform: one `{url, uid}`
pair pushed per run of the record, in order. -/
def sraURL (obj : SraRecord) : List UrlUid :=
  obj.runs.Run.map (fun run => { url := sraRunURL run.acc, uid := obj.uid })

/-- `Object.keys(validDbs.dbs)` from `valid-dbs.js`, in source order. -/
def dbsKeys : List String :=
  [ "gquery", "assembly", "bioproject", "biosample", "biosystems", "books",
    "clinvar", "clone", "cdd", "gap", "dbvar", "nucest", "gene", "genome",
    "gds", "geoprofiles", "nucgss", "gtr", "homologene", "medgen", "mesh",
    "ncbisearch", "nlmcatalog", "nuccore", "omim", "pmc", "popset", "probe",
    "protein", "proteinclusters", "pcassay", "pccompound", "pcsubstance",
    "pubmed", "pubmedhealth", "snp", "sparcle", "sra", "structure",
    "taxonomy", "toolkit", "toolkitall", "toolkitbook", "toolkitbookgh",
    "unigene"]

/-- The typed error thrown by `ncbi.search`: `InvalidDbError` sets a
`name` and carries the message (`valid-dbs.js`). -/
structure InvalidDbError where
  name : String
  message : String
deriving DecidableEq

def invalidDbMsg (db : String) : String :=
  "The database \"" ++ db ++ "\" is not a valid ncbi database"

/-- The synchronous head of `ncbi.search`: an invalid database name throws
an `InvalidDbError` before the pipeline is built; otherwise the pipeline
starts and its first outbound request is the esearch URL for the written
term. -/
def ncbiSearchFirstStep (db term : String) : Except InvalidDbError String :=
  if dbsKeys.contains db then .ok (esearchQuery db term)
  else .error { name := "InvalidDbError", message := invalidDbMsg db }

/-- The synchronous head of `ncbi.fetch`: the source builds its pipeline
(`createAPISearchUrl` first) with no database-name validation, so the
first outbound request is issued for any database string. -/
def ncbiFetchFirstStep (db term : String) : Except InvalidDbError String :=
  .ok (esearchQuery db term)

/-! ### Helper lemmas -/

theorem chunk50_length (l : List String) :
    (chunk50 l).length = (l.length + 49) / 50 := by
  match l with
  | [] => simp [chunk50]
  | x :: xs =>
    rw [chunk50]
    have ih := chunk50_length ((x :: xs).drop 50)
    simp only [List.length_cons, List.length_drop] at ih ⊢
    rw [ih]
    omega
termination_by l.length
decreasing_by
  simp only [List.length_drop, List.length_cons]
  omega

theorem chunk50_flatten (l : List String) : (chunk50 l).flatten = l := by
  match l with
  | [] => simp [chunk50]
  | x :: xs =>
    rw [chunk50]
    have ih := chunk50_flatten ((x :: xs).drop 50)
    simp only [List.flatten_cons, ih, List.take_append_drop]
termination_by l.length
decreasing_by
  simp only [List.length_drop, List.length_cons]
  omega

theorem chunk50_size (l : List String) : ∀ c ∈ chunk50 l, c.length ≤ 50 := by
  match l with
  | [] => simp [chunk50]
  | x :: xs =>
    rw [chunk50]
    intro c hc
    rcases List.mem_cons.mp hc with h | h
    · subst h
      simp only [List.length_take]
      omega
    · exact chunk50_size ((x :: xs).drop 50) c h
termination_by l.length
decreasing_by
  simp only [List.length_drop, List.length_cons]
  omega

/-! ### Claims -/

/-- Claim C9: for every paginated search response, `createAPIDataUrl`
splits the page's id list into chunks of at most 50 identifiers whose
concatenation is the whole id list, emits exactly `ceil(|idlist| / 50)`
esummary request URLs — one per chunk, carrying the chunk's ids joined by
commas (`esummaryQuery`) — and emits no request and no error when the id
list is missing or empty. -/
theorem summary_chunking (db : String) (ids : List String) :
    createAPIDataUrl db (some ids) = (chunk50 ids).map (esummaryQuery db) ∧
    (createAPIDataUrl db (some ids)).length = (ids.length + 49) / 50 ∧
    (chunk50 ids).flatten = ids ∧
    (∀ c ∈ chunk50 ids, c.length ≤ 50) ∧
    createAPIDataUrl db none = [] := by
  have h1 : createAPIDataUrl db (some ids) = (chunk50 ids).map (esummaryQuery db) := by
    match ids with
    | [] => simp [createAPIDataUrl, chunk50]
    | x :: xs => simp [createAPIDataUrl]
  refine ⟨h1, ?_, chunk50_flatten ids, chunk50_size ids, rfl⟩
  rw [h1, List.length_map, chunk50_length]

/-- Witness for C9 at a concrete 51-element id list: two esummary URLs are
emitted. -/
theorem summary_chunking_witness :
    (createAPIDataUrl "sra" (some (List.replicate 51 "7"))).length = 2 := by
  have h := (summary_chunking "sra" (List.replicate 51 "7")).2.1
  rw [h]
  decide

/-- Claim C8: for every normalized sequencing-run record, `sraURL` emits
one `{url, uid}` pair per run accession, the `uid` being the record's uid
and the `url` being the fixed archive root followed by the first 3
characters of the accession, its first 6 characters, the accession, and
`accession + ".sra"` as successive path segments. -/
theorem sra_url_per_run (obj : SraRecord) :
    sraURL obj = obj.runs.Run.map (fun run =>
      { url := SRAROOT ++ (run.acc.take 3 ++ "/") ++ (run.acc.take 6 ++ "/") ++
               (run.acc ++ "/") ++ (run.acc ++ ".sra"),
        uid := obj.uid }) := by
  unfold sraURL
  refine List.map_congr_left (fun run _ => ?_)
  have h : sraRunURL run.acc =
      SRAROOT ++ (run.acc.take 3 ++ "/") ++ (run.acc.take 6 ++ "/") ++
      (run.acc ++ "/") ++ (run.acc ++ ".sra") := by
    unfold sraRunURL SRAROOT
    cases run.acc
    rfl
  rw [h]

/-- Claim C4: a decoded initial-search response whose result envelope,
session token or count field is missing makes `createAPIPaginateURL` emit
the fixed error message with the offending request URL appended, and no
page-request URLs are emitted (the outcome is exactly the error; the
paginator has no retry path). -/
theorem paginate_malformed_fatal (limit tp : Option Nat) (db term url : String)
    (body : JsonBody)
    (h : body.esearchresult = none ∨
         ∃ es, body.esearchresult = some es ∧ (es.webenv = none ∨ es.count = none)) :
    createAPIPaginateURL limit tp db term url body = .fatal (INVALIDRESULTS ++ url) := by
  rcases h with h | ⟨es, hes, h2⟩
  · simp [createAPIPaginateURL, h]
  · rcases h2 with hw | hc
    · simp [createAPIPaginateURL, hes, hw]
    · cases hwe : es.webenv <;> simp [createAPIPaginateURL, hes, hwe, hc]

/-- Witness for C4 at a concrete response that carries a webenv but no
count field. -/
theorem paginate_malformed_fatal_witness :
    createAPIPaginateURL none none "sra" "human" "http://u"
      ⟨some ⟨some "WE1", none, none, none⟩, none, none⟩ =
      .fatal (INVALIDRESULTS ++ "http://u") :=
  paginate_malformed_fatal none none "sra" "human" "http://u" _
    (Or.inr ⟨⟨some "WE1", none, none, none⟩, rfl, Or.inr rfl⟩)

/-- Claim C1 (amended): for a well-formed search response with reported
count `C`, optional limit `L` and positive effective page size `T`
(default 50, clamped to `L` when `L < T`), the paginator emits exactly
`ceil(E / T)` page-request URLs with offsets `0, T, 2T, …`, where `E` is
`L` when a nonzero limit is given and `C` otherwise — the limit replaces
the reported count even when it exceeds it — except when `C` equals 1, in
which case exactly one request reusing the original search URL is
issued. -/
theorem paginate_request_count (limit tp : Option Nat) (db term url : String)
    (sumr : Option (List String)) (errf : Option String)
    (idl : Option (List String)) (errES : Option String) (w : String) (c : Nat)
    (hT : 0 < clampThroughput limit tp) :
    createAPIPaginateURL limit tp db term url
      ⟨some ⟨some w, some c, idl, errES⟩, sumr, errf⟩ =
      (if c = 1 then .single url
       else .pages ((List.range (jsCeilDiv (jsOrNat limit c) (clampThroughput limit tp))).map
         (fun i => paginateQuery db term w (clampThroughput limit tp)
           (i * clampThroughput limit tp)))) := by
  have hne : ¬ (clampThroughput limit tp = 0) := by omega
  by_cases h1 : c = 1
  · simp [createAPIPaginateURL, h1]
  · simp [createAPIPaginateURL, h1, hne]

/-- Witness for C1 at reported count 120 with no limit: three page
requests with offsets 0, 50, 100. -/
theorem paginate_request_count_witness :
    createAPIPaginateURL none none "sra" "human" "http://u"
      ⟨some ⟨some "WE1", some 120, none, none⟩, none, none⟩ =
      .pages ((List.range 3).map (fun i => paginateQuery "sra" "human" "WE1" 50 (i * 50))) := by
  have h := paginate_request_count none none "sra" "human" "http://u"
    none none none none "WE1" 120 (by decide)
  simpa [clampThroughput, jsOrNat, jsCeilDiv, RETURNMAX] using h

/-- Counterexample to C1 as stated: with reported count 10, limit 100 and
default page size 50, the code issues `ceil(100 / 50) = 2` page requests,
while the claimed formula `ceil(min(C, L) / T)` predicts 1. -/
theorem paginate_min_formula_cex :
    (match createAPIPaginateURL (some 100) none "sra" "human" "http://u"
        ⟨some ⟨some "WE1", some 10, none, none⟩, none, none⟩ with
     | .pages ps => ps.length
     | _ => 0) = 2 ∧
    jsCeilDiv (min 10 (jsOrNat (some 100) 10)) (clampThroughput (some 100) none) = 1 := by
  constructor
  · rfl
  · rfl

/-- Claim C10: with `limit = 0` the JavaScript falsiness of 0 makes the
clamp set the effective page size to 0 while the effective count falls
back to the reported count; for a reported count greater than 1 the
computed request count is the float `Infinity`, so the page-emission loop
never terminates — and with a positive effective page size the transform
never diverges. -/
theorem paginate_limit_zero_diverges (tp : Option Nat) (db term url : String)
    (sumr : Option (List String)) (errf : Option String)
    (idl : Option (List String)) (errES : Option String) (w : String) (c : Nat)
    (h1 : 1 < c) :
    clampThroughput (some 0) tp = 0 ∧
    jsOrNat (some 0) c = c ∧
    createAPIPaginateURL (some 0) tp db term url
      ⟨some ⟨some w, some c, idl, errES⟩, sumr, errf⟩ = .diverges ∧
    (∀ (limit tp2 : Option Nat) (body : JsonBody),
      0 < clampThroughput limit tp2 →
      createAPIPaginateURL limit tp2 db term url body ≠ .diverges) := by
  have hclamp : clampThroughput (some 0) tp = 0 := by
    simp only [clampThroughput]
    split <;> omega
  refine ⟨hclamp, by simp [jsOrNat], ?_, ?_⟩
  · have hc1 : ¬ (c = 1) := by omega
    have hc0 : ¬ (jsOrNat (some 0) c = 0) := by simp [jsOrNat]; omega
    simp [createAPIPaginateURL, hclamp, hc1, hc0]
  · intro limit tp2 body hpos
    have hne : ¬ (clampThroughput limit tp2 = 0) := by omega
    unfold createAPIPaginateURL
    cases hes : body.esearchresult with
    | none => simp
    | some es =>
      cases hwe : es.webenv with
      | none => simp [hwe]
      | some w2 =>
        cases hc : es.count with
        | none => simp [hwe, hc]
        | some c2 =>
          by_cases hc1 : c2 = 1 <;> simp [hwe, hc, hc1, hne]

/-- Witness for C10 at reported count 2: the transform diverges, the
clamped page size is 0 and the effective count is 2; with the default
page size the same response does not diverge. -/
theorem paginate_limit_zero_diverges_witness :
    clampThroughput (some 0) none = 0 ∧
    jsOrNat (some 0) 2 = 2 ∧
    createAPIPaginateURL (some 0) none "sra" "human" "http://u"
      ⟨some ⟨some "WE1", some 2, none, none⟩, none, none⟩ = .diverges ∧
    createAPIPaginateURL none none "sra" "human" "http://u"
      ⟨some ⟨some "WE1", some 2, none, none⟩, none, none⟩ ≠ .diverges := by
  have h := paginate_limit_zero_diverges none "sra" "human" "http://u"
    none none none none "WE1" 2 (by decide)
  exact ⟨h.1, h.2.1, h.2.2.1,
    h.2.2.2 none none ⟨some ⟨some "WE1", some 2, none, none⟩, none, none⟩ (by decide)⟩

/-- Consuming a run of retryable failures advances the retry loop: each
failure issues one request and increments `self.tries`, as long as the
bound is not hit strictly before the run ends. -/
theorem requestLoop_consume (url : String) (ret : Bool) :
    ∀ (fails : List Response) (t made : Nat) (rest : List Response),
    (∀ r ∈ fails, isRetryable r = true) → t + fails.length ≤ 10 →
    requestLoop url ret t made (fails ++ rest) =
      requestLoop url ret (t + fails.length) (made + fails.length) rest := by
  intro fails
  induction fails with
  | nil => intro t made rest _ _; simp
  | cons f fs ih =>
    intro t made rest hall hb
    have ht : ¬ (9 < t) := by
      simp only [List.length_cons] at hb
      omega
    have hf : isRetryable f = true := hall f (List.mem_cons_self f fs)
    simp only [List.cons_append, requestLoop, ht, if_false, hf, if_true, List.append_eq]
    have hrec := ih (t + 1) (made + 1) rest
      (fun r hr => hall r (List.mem_cons_of_mem f hr))
      (by simp only [List.length_cons] at hb; omega)
    rw [hrec]
    have e1 : t + 1 + fs.length = t + (f :: fs).length := by
      simp only [List.length_cons]
      omega
    have e2 : made + 1 + fs.length = made + (f :: fs).length := by
      simp only [List.length_cons]
      omega
    rw [e1, e2]

/-- Claim C2: after 9 consecutive retryable failures for a URL the fetcher
abandons retrying and raises a fatal stream error whose message carries
the URL and the attempt counter (`self.tries`, then 10); the error
destroys the pipeline, so no success body is ever pushed downstream for
that URL, whatever responses would have followed. -/
theorem retry_exhaustion_fatal (url : String) (ret : Bool)
    (fails rest : List Response)
    (hlen : fails.length = 9) (hall : ∀ r ∈ fails, isRetryable r = true) :
    requestStream ret url (fails ++ rest) = .fatal 9 (failMsg url 10) := by
  unfold requestStream
  rw [requestLoop_consume url ret fails 1 0 rest hall (by omega)]
  rw [hlen]
  cases rest <;> simp [requestLoop]

/-- Witness for C2: nine consecutive transport errors end in the fatal
message naming the URL and the attempt counter. -/
theorem retry_exhaustion_fatal_witness :
    requestStream true "http://u" (List.replicate 9 ⟨true, none, none⟩) =
      .fatal 9 (failMsg "http://u" 10) := by
  have h := retry_exhaustion_fatal "http://u" true
    (List.replicate 9 ⟨true, none, none⟩) [] (by decide) (by decide)
  simpa using h

/-- Claim C3: `k` retryable failures (`k` at most 8) followed by a success
make the fetcher issue exactly `k + 1` requests and push the success body
downstream unmodified, paired with its originating URL when the stream was
created with `returnURL`. -/
theorem retry_then_success (url : String) (ret : Bool)
    (fails : List Response) (succ : Response) (b : JsonBody)
    (hk : fails.length ≤ 8) (hall : ∀ r ∈ fails, isRetryable r = true)
    (hs : isRetryable succ = false) (hb : succ.body = some b) :
    requestStream ret url (fails ++ [succ]) =
      .success (fails.length + 1) (mkPushed ret url (some b)) := by
  unfold requestStream
  rw [requestLoop_consume url ret fails 1 0 [succ] hall (by omega)]
  have ht : ¬ (9 < 1 + fails.length) := by omega
  simp [requestLoop, ht, hs, hb]

/-- Witness for C3: two transport errors then a clean 200 response give
three requests and the body forwarded with its URL. -/
theorem retry_then_success_witness :
    requestStream true "http://u"
      (List.replicate 2 ⟨true, none, none⟩ ++
        [⟨false, some 200, some ⟨none, none, none⟩⟩]) =
      .success 3 (.withUrl "http://u" (some ⟨none, none, none⟩)) := by
  have h := retry_then_success "http://u" true (List.replicate 2 ⟨true, none, none⟩)
    ⟨false, some 200, some ⟨none, none, none⟩⟩ ⟨none, none, none⟩
    (by decide) (by decide) (by decide) rfl
  simpa [mkPushed] using h

/-- A run of sub-lists none of whose link-names matches leaves the
accumulated `destUIDs` untouched. -/
theorem linkStep_no_match (dbfrom db : String) (sets : List LinkSetDbT)
    (h : ∀ x ∈ sets, x.LinkName.head? ≠ some (dbfrom ++ "_" ++ db)) :
    ∀ acc, sets.foldl (linkStep dbfrom db) acc = acc := by
  induction sets with
  | nil => intro acc; rfl
  | cons s ss ih =>
    intro acc
    simp only [List.foldl_cons]
    rw [linkStep, if_neg (h s (List.mem_cons_self s ss))]
    exact ih (fun x hx => h x (List.mem_cons_of_mem s hx)) acc

/-- Claim C5: a Link response whose link-set holds a sub-list with the
exact link-name `srcDB ++ "_" ++ destDB` (and no later matching sub-list)
makes `createLinkObj` emit exactly one result object for the source UID,
whose `destUIDs` is the ordered list of the destination identifiers
(`Id[0]` of each `Link` child) of that sub-list — all destinations
batched, not one emission per destination. -/
theorem link_batched_destuids (dbfrom db id : String) (lsRest : List LinkSetT)
    (pre post : List LinkSetDbT) (l : LinkSetDbT)
    (hmatch : l.LinkName.head? = some (dbfrom ++ "_" ++ db))
    (hpost : ∀ x ∈ post, x.LinkName.head? ≠ some (dbfrom ++ "_" ++ db)) :
    createLinkObj dbfrom db id (.ok ⟨⟨some (pre ++ l :: post)⟩ :: lsRest⟩) =
      .emits ⟨dbfrom, db, id, some (l.Link.map (fun e => e.Id.head?))⟩ := by
  have hcol : collectDestUIDs dbfrom db (pre ++ l :: post) =
      some (l.Link.map (fun e => e.Id.head?)) := by
    unfold collectDestUIDs
    rw [List.foldl_append, List.foldl_cons]
    have hstep : linkStep dbfrom db (pre.foldl (linkStep dbfrom db) none) l =
        some (l.Link.map (fun e => e.Id.head?)) := by
      rw [linkStep, if_pos hmatch]
    rw [hstep]
    exact linkStep_no_match dbfrom db post hpost _
  simp [createLinkObj, hcol]

/-- Witness for C5 at a concrete two-destination response. -/
theorem link_batched_destuids_witness :
    createLinkObj "bioproject" "assembly" "53577"
      (.ok ⟨[⟨some [⟨["bioproject_assembly"], [⟨["1"]⟩, ⟨["2"]⟩]⟩]⟩]⟩) =
      .emits ⟨"bioproject", "assembly", "53577", some [some "1", some "2"]⟩ := by
  have h := link_batched_destuids "bioproject" "assembly" "53577" [] [] []
    ⟨["bioproject_assembly"], [⟨["1"]⟩, ⟨["2"]⟩]⟩ rfl (by simp)
  simpa using h

/-- Claim C6 (amended): a Link response carrying no `LinkSetDb` sub-lists
at all — the shape the upstream service returns when there are no linked
records — yields zero emitted results and no error.  (When sub-lists are
present but none matches, the code still pushes one result without a
`destUIDs` field; see the counterexample.) -/
theorem link_no_linksets_no_emit (dbfrom db id : String) (lsRest : List LinkSetT) :
    createLinkObj dbfrom db id (.ok ⟨⟨none⟩ :: lsRest⟩) = .emitNothing := by
  simp [createLinkObj]

/-- Counterexample to C6 as stated: a response whose only sub-list carries
the non-matching link-name "x_y" contains no matching sub-list, yet
`createLinkObj` still pushes one result object (with no `destUIDs`),
rather than emitting zero results. -/
theorem link_unmatched_emits_cex :
    (∀ x ∈ [(⟨["x_y"], [⟨["7"]⟩]⟩ : LinkSetDbT)],
        x.LinkName.head? ≠ some ("a" ++ "_" ++ "b")) ∧
    createLinkObj "a" "b" "1" (.ok ⟨[⟨some [⟨["x_y"], [⟨["7"]⟩]⟩]⟩]⟩) =
      .emits ⟨"a", "b", "1", none⟩ := by
  constructor
  · decide
  · rfl

/-- Claim C7 (amended): `ncbi.search` — and hence the calls that delegate
to it (`urls`, `download`) — detects a database name outside the
valid-database table synchronously, before any network request, and
throws a typed `InvalidDbError` naming the database; `ncbi.fetch` performs
no such validation and issues its initial esearch request even for an
invalid name. -/
theorem invalid_db_rejected (db term : String)
    (h : dbsKeys.contains db = false) :
    ncbiSearchFirstStep db term =
      .error ⟨"InvalidDbError", invalidDbMsg db⟩ ∧
    ncbiFetchFirstStep db term = .ok (esearchQuery db term) := by
  constructor
  · have hm : db ∉ dbsKeys := by simpa using h
    simp [ncbiSearchFirstStep, hm]
  · rfl

/-- Witness for C7 at the concrete invalid name "notadb". -/
theorem invalid_db_rejected_witness :
    ncbiSearchFirstStep "notadb" "human" =
      .error ⟨"InvalidDbError", invalidDbMsg "notadb"⟩ ∧
    ncbiFetchFirstStep "notadb" "human" = .ok (esearchQuery "notadb" "human") :=
  invalid_db_rejected "notadb" "human" (by decide)

/-- Counterexample to C7 as stated: `ncbi.fetch` is a top-level call, yet
for the invalid database name "notadb" it raises no error and issues its
initial search request — the pipeline starts. -/
theorem fetch_skips_validation_cex :
    dbsKeys.contains "notadb" = false ∧
    ncbiFetchFirstStep "notadb" "human" = .ok (esearchQuery "notadb" "human") := by
  constructor
  · decide
  · rfl

end BionodeNcbi
